import Mathlib

/-!
Verification of the MyCodeBuddy code-generation pipeline.

This file gives a shallow embedding of the repository's core:

* `src/Agent/tools.py` — the per-session workspace sandbox
  (`safe_path_for_project`, `write_file`, `read_file`, `list_files`);
* `src/Agent/graph.py` — the pipeline stages `planner_agent`,
  `architect_agent`, `coder_agent` and the loop condition
  `should_continue`;
* `src/Agent/states.py` — the data model (`Plan`, `ImplementationTask`,
  `TaskPlan`, `CoderState`).

Modelling conventions:

* File paths are lists of segments (`Path := List String`); the Python
  code joins a caller-supplied relative path onto an absolute, already
  resolved project root and calls `pathlib.Path.resolve()`; `resolveSegs`
  mirrors that resolution ("." and empty segments dropped, ".." moves to
  the parent, and the parent of the filesystem root is the root itself).
* The filesystem and the event channel are an explicit `World` value:
  an association list of files, the set of directories that exist
  (created by `mkdir(parents=True)` inside `write_file` and by
  `init_project_root`), and the chronological list of emitted events.
  `World.bound` models `_session_id`/`_event_emitter` being set (the two
  are always set together, by `set_event_emitter`).
* The `@tool` decorator wraps each Python function in a langchain
  `StructuredTool`, and `coder_agent` calls the decorated objects
  directly, not the plain functions.  A direct call with a single
  positional argument (the reads at lines 150 and 204, the listing at
  line 183) binds the string to the tool's one parameter and executes
  the body; a direct call with two positional arguments — the debug
  write at line 141 and the fallback write at line 238 — raises before
  the tool body runs (the second argument does not reach the `content`
  parameter), and each such call site sits in a `try`, so the write is
  silently skipped: no file is created and no event is emitted.  The
  react agent's own tool invocations are dispatched by the tool node
  with keyword arguments and execute the bodies normally (`runCalls`).
* The two language-model calls made by `coder_agent` (the react agent
  and the no-tools fallback completion) are oracle parameters.  The
  react agent only interacts with the world through the four tools, so
  its effect is a list of tool invocations plus a flag saying whether it
  ended by raising; the fallback returns `none` when its invocation
  raised and `some text` otherwise.  Both may inspect the world (the
  prompts embed file contents read from it).
* Structured generation (`run_structured`) for the planner and architect
  stages is likewise an oracle: `none` models a `SchemaParseError` (or
  any other exception caught by the surrounding `try`).
-/

namespace MyCodeBuddy

deriving instance DecidableEq for Except

/-- A filesystem path, as the list of its segments below the filesystem
root.  The project root is itself such a list (already resolved). -/
abbrev Path := List String

/-- Embeds `pathlib` resolution of `acc / seg₀ / seg₁ / ...` where `acc`
is absolute and already resolved: "." and empty segments are dropped,
".." drops the last segment (the parent of the filesystem root being the
root itself), and ordinary segments are appended. -/
def resolveSegs (acc : Path) : List String → Path
  | [] => acc
  | s :: rest =>
    if s = "." ∨ s = "" then resolveSegs acc rest
    else if s = ".." then resolveSegs acc.dropLast rest
    else resolveSegs (acc ++ [s]) rest

/-- Embeds `pathlib.PurePath.parents` for a resolved absolute path: all
proper prefixes, i.e. all strict ancestors up to the filesystem root. -/
def pathParents (p : Path) : List Path :=
  (List.range p.length).map fun k => p.take k

/-- The error taxonomy of `src/Agent/tools.py`: the `ValueError` about
the session (raised when `_session_id` is unset), the `ValueError`
"Attempt to write outside project root" from `safe_path_for_project`,
and the `IsADirectoryError` that `open` raises on a directory. -/
inductive ToolError where
  | unboundSession
  | pathEscape
  | isADirectory
deriving DecidableEq, Repr

/-- One record sent through `emit_event` (tools.py line 18-21): the event
type, and the `path`/`action`/`size` payload of a `file` event — the only
event kind emitted from the embedded core. -/
structure Event where
  type : String
  path : List String
  action : String
  size : Nat
deriving DecidableEq, Repr

/-- The world the sandboxed tools act on: the (resolved) per-session
project root, whether a session is bound (`_session_id` and
`_event_emitter` set), the files (absolute path to content), the
directories that exist, and the events emitted so far (in order). -/
structure World where
  root : Path
  bound : Bool
  files : List (Path × String)
  dirs : List Path
  events : List Event
deriving DecidableEq, Repr

/-- Content of the file at absolute path `p`, if a file exists there. -/
def World.lookupFile (w : World) (p : Path) : Option String :=
  (w.files.find? (fun q => q.1 = p)).map (fun q => q.2)

/-- A regular file exists at `p`. -/
def World.isFile (w : World) (p : Path) : Bool :=
  (w.lookupFile p).isSome

/-- A directory exists at `p`. -/
def World.isDir (w : World) (p : Path) : Bool :=
  w.dirs.contains p

/-- Embeds `safe_path_for_project` (tools.py lines 27-32): resolve
`project_root / path`; raise unless the project root is one of the
resolved path's parents, or its immediate parent, or the path itself. -/
def safe_path_for_project (root : Path) (path : List String) : Except ToolError Path :=
  if root ∉ pathParents (resolveSegs root path) ∧
      root ≠ (resolveSegs root path).dropLast ∧
      root ≠ resolveSegs root path then
    .error .pathEscape
  else
    .ok (resolveSegs root path)

/-- Embeds `write_file` (tools.py lines 35-49): session check, path
check, `mkdir(parents=True)` for the parent, write (overwriting), and a
`file` event.  Opening a directory for writing raises, before any state
change (its parents already exist whenever a directory does). -/
def write_file (w : World) (path : List String) (content : String) :
    Except ToolError String × World :=
  if w.bound = false then (.error .unboundSession, w)
  else
    match safe_path_for_project w.root path with
    | .error e => (.error e, w)
    | .ok p =>
      if w.isDir p then (.error .isADirectory, w)
      else
        (.ok ("WROTE:" ++ String.intercalate "/" p),
         { w with
           files := (p, content) :: w.files.filter (fun q => q.1 ≠ p),
           dirs := (pathParents p).filter (fun d => w.dirs.contains d = false) ++ w.dirs,
           events := w.events ++ [⟨"file", path, "write", content.length⟩] })

/-- Embeds `read_file` (tools.py lines 52-62): session check, path
check, empty content when nothing exists at the path; `open` on a
directory raises. -/
def read_file (w : World) (path : List String) : Except ToolError String :=
  if w.bound = false then .error .unboundSession
  else
    match safe_path_for_project w.root path with
    | .error e => .error e
    | .ok p =>
      if w.isFile p = false ∧ w.isDir p = false then .ok ""
      else if w.isDir p then .error .isADirectory
      else .ok ((w.lookupFile p).getD "")

/-- The two shapes `list_files` returns: the "ERROR: ... is not a
directory" string, or the newline-joined relative listing (tools.py
lines 81-84).  Modelled as a sum so the two branches stay distinct. -/
inductive ListResult where
  | notADirectory (p : Path)
  | listing (files : List Path)
deriving DecidableEq, Repr

/-- Embeds `list_files` (tools.py lines 74-84): session check, path
check, the not-a-directory error string, else every file strictly below
the resolved directory, relative to the project root. -/
def list_files (w : World) (directory : List String) : Except ToolError ListResult :=
  if w.bound = false then .error .unboundSession
  else
    match safe_path_for_project w.root directory with
    | .error e => .error e
    | .ok p =>
      if w.isDir p = false then .ok (.notADirectory p)
      else
        .ok (.listing
          (((w.files.map Prod.fst).filter
              (fun f => decide (p <+: f) && decide (p ≠ f))).map
            (fun f => f.drop w.root.length)))

/-- Membership in `pathParents` is exactly strict prefixhood. -/
theorem mem_pathParents_iff (root p : Path) :
    root ∈ pathParents p ↔ root <+: p ∧ root ≠ p := by
  unfold pathParents
  simp only [List.mem_map, List.mem_range]
  constructor
  · rintro ⟨k, hk, rfl⟩
    refine ⟨ List.take_prefix k p, ?_⟩
    intro h
    have := congrArg List.length h
    simp [List.length_take] at this
    omega
  · rintro ⟨hpre, hne⟩
    refine ⟨root.length, ?_, ?_⟩
    · have hle := hpre.length_le
      rcases Nat.lt_or_ge root.length p.length with h | h
      · exact h
      · exfalso
        exact hne (hpre.eq_of_length (Nat.le_antisymm hle h))
    · exact (List.prefix_iff_eq_take.mp hpre).symm

/-- The guard of `safe_path_for_project` is exactly "the project root is
a prefix of the resolved path": the operation succeeds iff the resolved
path is the root or a descendant of it. -/
theorem safe_path_spec (root : Path) (path : List String) :
    safe_path_for_project root path =
      (if root <+: resolveSegs root path
       then .ok (resolveSegs root path)
       else .error .pathEscape) := by
  unfold safe_path_for_project
  generalize resolveSegs root path = p
  by_cases h : root <+: p
  · rw [if_pos h]
    rcases eq_or_ne root p with rfl | hne
    · simp
    · have hmem : root ∈ pathParents p := (mem_pathParents_iff root p).mpr ⟨h, hne⟩
      simp [hmem]
  · rw [if_neg h]
    have h1 : root ∉ pathParents p := by
      intro hmem
      exact h ((mem_pathParents_iff root p).mp hmem).1
    have h2 : root ≠ p.dropLast := by
      intro he
      exact h (he ▸ List.dropLast_prefix p)
    have h3 : root ≠ p := by
      intro he
      exact h (he ▸ List.prefix_refl p)
    simp [h1, h2, h3]

/-- Embeds `File` from `src/Agent/states.py`. -/
structure File where
  file_path : String
  file_purpose : String
deriving DecidableEq, Repr

/-- Embeds `Plan` from `src/Agent/states.py`. -/
structure Plan where
  name : String
  description : String
  tech_stack : String
  features : List String
  files : List File
deriving DecidableEq, Repr

/-- Embeds `ImplementationTask` from `src/Agent/states.py`.  `filepath`
is the caller-supplied path, as segments (see the header). -/
structure ImplementationTask where
  filepath : List String
  task_description : String
deriving DecidableEq, Repr

/-- Embeds `TaskPlan` from `src/Agent/states.py` (the extra keys allowed
by `extra="allow"`, such as the back-reference to the plan, do not
affect the coder and are not modelled). -/
structure TaskPlan where
  implementation_steps : List ImplementationTask
deriving DecidableEq, Repr

/-- Embeds `CoderState` from `src/Agent/states.py`. -/
structure CoderState where
  task_plan : TaskPlan
  current_step_idx : Nat
  current_file_content : Option String
deriving DecidableEq, Repr

/-- One tool invocation the react agent may make against the sandbox
(the fixed tool set bound in graph.py line 168). -/
inductive ToolCall where
  | write (path : List String) (content : String)
  | readF (path : List String)
  | listF (dir : List String)
  | cwd
deriving DecidableEq, Repr

/-- Effect of one react-agent tool invocation on the world.  `read`,
`list` and `get_current_directory` return values to the model but do
not change the filesystem or emit events; a `write` whose path check or
open fails leaves the world unchanged. -/
def applyCall (w : World) : ToolCall → World
  | .write p c => (write_file w p c).2
  | .readF _ => w
  | .listF _ => w
  | .cwd => w

/-- Effect of the react agent's whole tool-call sequence. -/
def runCalls (w : World) (calls : List ToolCall) : World :=
  calls.foldl applyCall w

/-- Outcome of one react-agent invocation (graph.py lines 166-197): the
tool calls it performed, in order, and whether the invocation ended by
raising an exception (caught at line 192, setting `success = False`). -/
structure ReactOutcome where
  calls : List ToolCall
  raised : Bool

/-- The two language-model calls of `coder_agent`, as oracles over the
current world (their prompts embed content read from it).  `fallback`
is the no-tools completion of graph.py line 217: `none` models the
invocation raising (caught at line 250), `some text` its response
content (the empty string being falsy at line 226). -/
structure Oracles where
  react : World → ReactOutcome
  fallback : World → Option String

/-- Embeds Python `str.strip()` on the character list: drop leading and
trailing whitespace. -/
def pyStripL (s : List Char) : List Char :=
  ((s.dropWhile Char.isWhitespace).reverse.dropWhile Char.isWhitespace).reverse

/-- Embeds Python `str.split('\n')` on the character list: the list of
lines, one more than the number of newline characters. -/
def splitLines : List Char → List (List Char)
  | [] => [[]]
  | c :: rest =>
    if c = '\n' then [] :: splitLines rest
    else
      match splitLines rest with
      | [] => [[c]]
      | l :: ls => (c :: l) :: ls

/-- Embeds Python `'\n'.join(lines)` on character lists. -/
def joinLines : List (List Char) → List Char
  | [] => []
  | [l] => l
  | l :: ls => l ++ '\n' :: joinLines ls

/-- Embeds the markdown-fence cleanup of graph.py lines 228-235: strip
the response; if it starts with a triple-backtick fence, split into
lines, drop the first line when it starts with a fence and the last
line when it strips to a bare fence, and rejoin.  The fallback computes
and logs this content, but its write at line 238 raises before the tool
body runs, so the result never reaches the filesystem. -/
def stripFence (resp : String) : String :=
  let content := pyStripL resp.data
  if ("```".data).isPrefixOf content then
    let lines := splitLines content
    let lines := if ("```".data).isPrefixOf (lines.headD []) then lines.drop 1 else lines
    let lines :=
      if lines ≠ [] ∧ pyStripL (lines.getLastD []) = "```".data then lines.dropLast
      else lines
    ⟨joinLines lines⟩
  else ⟨content⟩

/-- Embeds the debug-write block of graph.py lines 139-147: before
attempting the step, `coder_agent` calls
`write_file("test.txt", "Hello World Test")`.  That is a direct call
with two positional arguments on the `@tool`-decorated `StructuredTool`,
which raises before the tool body executes; the exception is caught at
line 145 ("Test file write failed").  The block therefore leaves the
world unchanged: no `test.txt` is created and no event is emitted. -/
def testWritePhase (w : World) : World := w

/-- The world as the primary attempt leaves it: the debug write of
lines 139-147, then the react agent's tool calls (lines 166-191; the
existing-content read at line 150 and the directory listing at line 183
return values only). -/
def afterReact (o : Oracles) (w : World) : World :=
  runCalls (testWritePhase w) (o.react (testWritePhase w)).calls

/-- The active step's target file (graph.py line 135). -/
def targetOf (cs : CoderState) : List String :=
  (cs.task_plan.implementation_steps.getD cs.current_step_idx ⟨[], ""⟩).filepath

/-- Embeds the verification re-read of graph.py lines 202-209: the
target counts as written only when re-reading it yields content whose
stripped length is positive (`len(test_content.strip()) > 0`); a
raising read counts as not written (line 207). -/
def confirmedRead (w2 : World) (tgt : List String) : Bool :=
  match read_file w2 tgt with
  | .ok s => decide (0 < (pyStripL s.data).length)
  | .error _ => false

/-- Embeds the fallback block of graph.py lines 211-253 given the
post-react world: the no-tools completion is invoked once (line 217);
when it raised (`none`) or its content is falsy, nothing further
happens.  When its content is non-empty, the code strips a fence and
calls `write_file(current_task.filepath, content)` at line 238 — again
a direct call with two positional arguments on the `StructuredTool`,
which raises before the tool body executes and is caught by the outer
`except` at line 250.  In every branch the fallback leaves the world
unchanged: it never writes the target file and emits no event. -/
def fallbackWorld (o : Oracles) (_tgt : List String) (w2 : World) : World :=
  match o.fallback w2 with
  | none => w2
  | some resp =>
    if resp ≠ "" then w2
    else w2

/-- Embeds the guard of graph.py line 211
(`if not success or not file_exists_after_react`), where `success` is
true iff the react invocation did not raise (lines 165-197) and
`file_exists_after_react` is the verification re-read: the fallback
path is entered — the code logs "trying fallback" and invokes the
no-tools completion — exactly when this is true. -/
def fallbackEntered (o : Oracles) (cs : CoderState) (w : World) : Bool :=
  !(!(o.react (testWritePhase w)).raised) || !(confirmedRead (afterReact o w) (targetOf cs))

/-- Embeds `coder_agent` from the point where a `CoderState` is in hand
(graph.py lines 124-263): if the cursor is past the last step, return
the state unchanged; otherwise run the primary attempt (`afterReact`),
compute the `success` flag and the verification re-read, enter the
fallback block exactly when the attempt raised or was not confirmed
(line 211), and increment the cursor unconditionally (line 256). -/
def coderCore (o : Oracles) (cs : CoderState) (w : World) : CoderState × World :=
  let steps := cs.task_plan.implementation_steps
  if steps.length ≤ cs.current_step_idx then
    (cs, w)
  else
    let w2 := afterReact o w
    let w3 :=
      if fallbackEntered o cs w = true then fallbackWorld o (targetOf cs) w2
      else w2
    ({ cs with current_step_idx := cs.current_step_idx + 1 }, w3)

/-- The `coder_state` value inside the dynamic state dict: each field
models one dict key, `none` meaning the key is absent (`.get` defaults
apply on reconstruction, graph.py lines 116-120). -/
structure CoderStateData where
  task_plan : Option TaskPlan
  current_step_idx : Option Nat
  current_file_content : Option (Option String)
deriving DecidableEq, Repr

/-- Embeds `CoderState.model_dump()`: every key present. -/
def dumpCoderState (cs : CoderState) : CoderStateData :=
  ⟨some cs.task_plan, some cs.current_step_idx, some cs.current_file_content⟩

/-- The slice of the dynamic pipeline state that `coder_agent` reads:
the optional top-level "task_plan" key and the optional "coder_state"
key. -/
structure CoderInput where
  task_plan : Option TaskPlan
  coder_state : Option CoderStateData
deriving DecidableEq, Repr

/-- Embeds `coder_agent` (graph.py lines 79-263) end to end.  Locate a
task plan (top level first, then inside `coder_state`); with none found
return the sentinel `{"current_step_idx": 999, "task_plan":
{"implementation_steps": []}}` (line 96).  With no existing
`coder_state`, start at cursor 0.  Otherwise reconstruct the state from
the dict, re-reading `task_plan` from the `coder_state` dict itself
(line 110): when that key is missing there, `TaskPlan(**{})` raises a
validation error, modelled as `.error`.  The reconstructed state then
runs `coderCore` and the result is dumped. -/
def coder_agent (o : Oracles) (input : CoderInput) (w : World) :
    Except String (CoderStateData × World) :=
  let task_plan_found : Option TaskPlan :=
    match input.task_plan with
    | some tp => some tp
    | none =>
      match input.coder_state with
      | some csd => csd.task_plan
      | none => none
  match task_plan_found with
  | none => .ok (⟨some ⟨[]⟩, some 999, none⟩, w)
  | some task_plan_data =>
    match input.coder_state with
    | none =>
      let r := coderCore o ⟨task_plan_data, 0, none⟩ w
      .ok (dumpCoderState r.1, r.2)
    | some csd =>
      match csd.task_plan with
      | none => .error "ValidationError: implementation_steps missing"
      | some tp =>
        let r := coderCore o
          ⟨tp, csd.current_step_idx.getD 0, csd.current_file_content.getD none⟩ w
        .ok (dumpCoderState r.1, r.2)

/-- Embeds `should_continue` (graph.py lines 266-293): with no (dict)
`coder_state` in the state, "END"; otherwise compare the cursor
(default 0) against the number of steps of the `task_plan` key (default
empty). -/
def should_continue (coder_state : Option CoderStateData) : String :=
  match coder_state with
  | none => "END"
  | some cs =>
    let current_idx := cs.current_step_idx.getD 0
    let total_steps := ((cs.task_plan.map TaskPlan.implementation_steps).getD []).length
    if total_steps ≤ current_idx then "END" else "coder"

/-- Outcomes of the two `run_structured` calls, as oracles: `none`
models the call raising (`SchemaParseError` from `parser.parse`, or any
other exception — both land in the same `except` branch). -/
structure GenOracles where
  planGen : Option Plan
  taskGen : Plan → Option TaskPlan

/-- Embeds `planner_agent` (graph.py lines 42-55): the structured plan,
or on any exception the default error plan with no files. -/
def planner_agent (g : GenOracles) : Plan :=
  match g.planGen with
  | some p => p
  | none => ⟨"Error", "Failed to create plan", "unknown", [], []⟩

/-- Output dict of `architect_agent`: the generated steps plus the plan
back-reference (absent when the incoming state had no plan, line 62). -/
structure ArchitectOut where
  implementation_steps : List ImplementationTask
  plan : Option Plan
deriving DecidableEq, Repr

/-- Embeds `architect_agent` (graph.py lines 58-76): with no plan in the
state, an empty task plan; otherwise the structured task plan with the
plan attached, or on any exception an empty one with the plan
attached. -/
def architect_agent (g : GenOracles) (plan : Option Plan) : ArchitectOut :=
  match plan with
  | none => ⟨[], none⟩
  | some p =>
    match g.taskGen p with
    | some tp => ⟨tp.implementation_steps, some p⟩
    | none => ⟨[], some p⟩

/-- The coding loop of the compiled graph, driven from outside: `n`
invocations of `coder_agent`, the first with no `coder_state`, each
later one fed the previous output (the top-level "task_plan" key stays
in the LangGraph state throughout).  Each invocation may see a fresh
pair of model oracles.  The error case cannot arise along this loop. -/
def coderInvocations (os : Nat → Oracles) (tp : TaskPlan) (w : World) :
    Nat → Option CoderStateData × World
  | 0 => (none, w)
  | n + 1 =>
    let prev := coderInvocations os tp w n
    match coder_agent (os n) ⟨some tp, prev.1⟩ prev.2 with
    | .ok (csd, w2) => (some csd, w2)
    | .error _ => prev

/-! ## Helper lemmas -/

/-- The coder state coming out of `coderCore`: the task plan and scratch
content are untouched, and the cursor advances exactly when a step was
pending. -/
theorem coderCore_fst (o : Oracles) (cs : CoderState) (w : World) :
    (coderCore o cs w).1 =
      { cs with current_step_idx :=
          if cs.task_plan.implementation_steps.length ≤ cs.current_step_idx
          then cs.current_step_idx
          else cs.current_step_idx + 1 } := by
  unfold coderCore
  by_cases h : cs.task_plan.implementation_steps.length ≤ cs.current_step_idx
  · simp [h]
  · simp [h]

/-- Past the last step, `coderCore` changes nothing. -/
theorem coderCore_terminal (o : Oracles) (cs : CoderState) (w : World)
    (h : cs.task_plan.implementation_steps.length ≤ cs.current_step_idx) :
    coderCore o cs w = (cs, w) := by
  unfold coderCore
  simp [h]

/-- One `coder_agent` invocation with no prior coder state. -/
theorem coder_agent_fresh (o : Oracles) (tp : TaskPlan) (w : World) :
    coder_agent o ⟨some tp, none⟩ w =
      .ok (⟨some tp,
            some (if tp.implementation_steps.length ≤ 0 then 0 else 1),
            some none⟩,
           (coderCore o ⟨tp, 0, none⟩ w).2) := by
  simp [coder_agent, dumpCoderState, coderCore_fst]

/-- One `coder_agent` invocation fed a dumped coder state at cursor `k`
with empty scratch content. -/
theorem coder_agent_feed (o : Oracles) (tp0 tp : TaskPlan) (k : Nat) (w : World) :
    coder_agent o ⟨some tp0, some ⟨some tp, some k, some none⟩⟩ w =
      .ok (⟨some tp,
            some (if tp.implementation_steps.length ≤ k then k else k + 1),
            some none⟩,
           (coderCore o ⟨tp, k, none⟩ w).2) := by
  simp [coder_agent, dumpCoderState, coderCore_fst]

/-- Unfolding equation for one more loop iteration. -/
theorem coderInvocations_succ (os : Nat → Oracles) (tp : TaskPlan) (w : World) (n : Nat) :
    coderInvocations os tp w (n + 1) =
      (match coder_agent (os n) ⟨some tp, (coderInvocations os tp w n).1⟩
          (coderInvocations os tp w n).2 with
       | .ok (csd, w2) => (some csd, w2)
       | .error _ => coderInvocations os tp w n) := rfl

/-- Cursor value along the coding loop: after `n + 1` invocations the
cursor sits at `min (n + 1) N`, the task plan rides along unchanged and
the scratch content stays empty. -/
theorem coderInvocations_fst (os : Nat → Oracles) (tp : TaskPlan) (w : World) :
    ∀ n, (coderInvocations os tp w (n + 1)).1 =
      some ⟨some tp, some (min (n + 1) tp.implementation_steps.length), some none⟩ := by
  intro n
  induction n with
  | zero =>
    rw [coderInvocations_succ]
    rw [show coderInvocations os tp w 0 = ((none : Option CoderStateData), w) from rfl]
    dsimp only
    rw [coder_agent_fresh]
    have hm : (if tp.implementation_steps.length ≤ 0 then 0 else 1) =
        min 1 tp.implementation_steps.length := by
      split <;> omega
    dsimp only
    rw [hm]
  | succ n ih =>
    rw [coderInvocations_succ]
    rcases hprev : coderInvocations os tp w (n + 1) with ⟨csd, w2⟩
    rw [hprev] at ih
    dsimp only at ih
    subst ih
    dsimp only
    rw [coder_agent_feed]
    have hm : (if tp.implementation_steps.length ≤ min (n + 1) tp.implementation_steps.length
            then min (n + 1) tp.implementation_steps.length
            else min (n + 1) tp.implementation_steps.length + 1) =
        min (n + 1 + 1) tp.implementation_steps.length := by
      split <;> omega
    dsimp only
    rw [hm]

/-- The fallback block never changes the world: its only write, line
238, raises before the tool body runs and is caught at line 250. -/
theorem fallbackWorld_id (o : Oracles) (tgt : List String) (w2 : World) :
    fallbackWorld o tgt w2 = w2 := by
  unfold fallbackWorld
  cases o.fallback w2 with
  | none => rfl
  | some resp =>
    dsimp only
    split <;> rfl

/-! ## Concrete instances used by witnesses and counterexamples -/

/-- A small bound world: project root `proj`, no files yet, no events. -/
def wProj : World := ⟨["proj"], true, [], [["proj"]], []⟩

/-- Oracle pair whose react invocation raises at once and whose fallback
invocation raises too. -/
def oraclesRaise : Oracles := ⟨fun _ => ⟨[], true⟩, fun _ => none⟩

/-- Oracle pair whose react agent completes normally after writing a
single blank character to the target, and whose fallback answers with
the text FALLBACK. -/
def oraclesWriteBlank : Oracles :=
  ⟨fun _ => ⟨[ToolCall.write ["app.txt"] " "], false⟩, fun _ => some "FALLBACK"⟩

/-- A one-step plan targeting `app.txt`, at cursor 0. -/
def csAppStep : CoderState := ⟨⟨[⟨["app.txt"], "write app"⟩]⟩, 0, none⟩

/-- Structured-generation oracles where the Plan request fails to parse
but the TaskPlan request parses to a two-step plan. -/
def genPlanFailsTaskTwo : GenOracles :=
  ⟨none, fun _ => some ⟨[⟨["a.py"], "t1"⟩, ⟨["b.py"], "t2"⟩]⟩⟩

/-- Structured-generation oracles where every request fails to parse. -/
def genAllFail : GenOracles := ⟨none, fun _ => none⟩

/-! ## Claims -/

/-- C1: whenever a step is attempted (cursor below the number of steps)
the cursor advances by exactly one, whatever the react agent and the
fallback do; and across any invocation it never decreases and never
gains more than one, so no index is skipped. -/
theorem cursor_increments_once (o : Oracles) (cs : CoderState) (w : World) :
    ((coderCore o cs w).1.current_step_idx =
      if cs.current_step_idx < cs.task_plan.implementation_steps.length
      then cs.current_step_idx + 1
      else cs.current_step_idx)
    ∧ cs.current_step_idx ≤ (coderCore o cs w).1.current_step_idx
    ∧ (coderCore o cs w).1.current_step_idx ≤ cs.current_step_idx + 1 := by
  rw [coderCore_fst]
  dsimp only
  rcases Nat.lt_or_ge cs.current_step_idx cs.task_plan.implementation_steps.length with h | h
  · rw [if_neg (Nat.not_le.mpr h), if_pos h]
    exact ⟨rfl, by omega, by omega⟩
  · rw [if_pos h, if_neg (Nat.not_lt.mpr h)]
    exact ⟨rfl, by omega, by omega⟩

/-- C4: invoking the coder with the cursor at or past the number of
steps returns the coder state and the world unchanged, and this is the
only no-op transition. -/
theorem coder_noop_iff_complete (o : Oracles) (cs : CoderState) (w : World) :
    coderCore o cs w = (cs, w) ↔
      cs.task_plan.implementation_steps.length ≤ cs.current_step_idx := by
  constructor
  · intro h
    by_contra hlt
    have h1 : (coderCore o cs w).1 = cs := by rw [h]
    rw [coderCore_fst] at h1
    have h2 := congrArg CoderState.current_step_idx h1
    dsimp only at h2
    rw [if_neg hlt] at h2
    omega
  · intro h
    exact coderCore_terminal o cs w h

/-- C4 witness: a concrete terminal state is a fixed point. -/
theorem coder_noop_iff_complete_witness :
    coderCore ⟨fun _ => ⟨[], true⟩, fun _ => none⟩
        ⟨⟨[⟨["a.py"], "t"⟩]⟩, 1, none⟩
        ⟨["proj"], true, [], [["proj"]], []⟩ =
      (⟨⟨[⟨["a.py"], "t"⟩]⟩, 1, none⟩, ⟨["proj"], true, [], [["proj"]], []⟩) :=
  (coder_noop_iff_complete ⟨fun _ => ⟨[], true⟩, fun _ => none⟩
    ⟨⟨[⟨["a.py"], "t"⟩]⟩, 1, none⟩
    ⟨["proj"], true, [], [["proj"]], []⟩).mpr (by decide)

/-- C3: from a fresh state, `N + 1` invocations of the coder reach the
terminal state (cursor at `N`, hence at or past `N`), and the loop
condition then routes to END, so no further invocation is made. -/
theorem n_plus_one_invocations_complete (os : Nat → Oracles) (tp : TaskPlan) (w : World) :
    ∃ csd w2,
      coderInvocations os tp w (tp.implementation_steps.length + 1) = (some csd, w2)
      ∧ csd.current_step_idx = some tp.implementation_steps.length
      ∧ csd.task_plan = some tp
      ∧ should_continue (some csd) = "END" := by
  have hmin : min (tp.implementation_steps.length + 1) tp.implementation_steps.length =
      tp.implementation_steps.length := by omega
  rcases h : coderInvocations os tp w (tp.implementation_steps.length + 1) with ⟨csd, w2⟩
  have h1 := coderInvocations_fst os tp w tp.implementation_steps.length
  rw [h] at h1
  dsimp only at h1
  subst h1
  refine ⟨⟨some tp, some (min (tp.implementation_steps.length + 1)
    tp.implementation_steps.length), some none⟩, w2, rfl, ?_, rfl, ?_⟩
  · rw [hmin]
  · simp [should_continue, hmin]

/-- C5: when the caller-supplied path resolves outside the project root
(neither the root itself nor a descendant), every sandbox operation
fails with the path-escape error and performs no I/O: the world — files,
directories and emitted events alike — is returned unchanged by
`write_file`, and `read_file` and `list_files` return no data. -/
theorem path_escape_no_io (w : World) (p : List String) (c : String)
    (hb : w.bound = true)
    (hesc : ¬ w.root <+: resolveSegs w.root p) :
    write_file w p c = (.error .pathEscape, w)
    ∧ read_file w p = .error .pathEscape
    ∧ list_files w p = .error .pathEscape := by
  have hs : safe_path_for_project w.root p = .error .pathEscape := by
    rw [safe_path_spec, if_neg hesc]
  refine ⟨?_, ?_, ?_⟩ <;> simp [write_file, read_file, list_files, hb, hs]

/-- C5 witness: `../../etc` escapes the root `proj` and all three
operations fail without touching the world. -/
theorem path_escape_no_io_witness :
    write_file wProj ["..", "..", "etc"] "x" = (.error .pathEscape, wProj)
    ∧ read_file wProj ["..", "..", "etc"] = .error .pathEscape
    ∧ list_files wProj ["..", "..", "etc"] = .error .pathEscape :=
  path_escape_no_io wProj ["..", "..", "etc"] "x" rfl (by decide)

/-- C7: a path that resolves inside the project root but does not name
a directory makes `list_files` return its not-a-directory error result
rather than a listing. -/
theorem list_files_not_a_directory (w : World) (d : List String)
    (hb : w.bound = true)
    (hin : w.root <+: resolveSegs w.root d)
    (hnd : w.isDir (resolveSegs w.root d) = false) :
    list_files w d = .ok (.notADirectory (resolveSegs w.root d)) := by
  have hs : safe_path_for_project w.root d = .ok (resolveSegs w.root d) := by
    rw [safe_path_spec, if_pos hin]
  simp [list_files, hb, hs, hnd]

/-- C7 witness: listing the nonexistent `foo` under the root `proj`. -/
theorem list_files_not_a_directory_witness :
    list_files wProj ["foo"] = .ok (.notADirectory ["proj", "foo"]) :=
  list_files_not_a_directory wProj ["foo"] rfl (by decide) (by decide)

/-- C8: reading an in-sandbox path at which nothing exists returns empty
content and no error. -/
theorem read_missing_file_empty (w : World) (p : List String)
    (hb : w.bound = true)
    (hin : w.root <+: resolveSegs w.root p)
    (hnf : w.isFile (resolveSegs w.root p) = false)
    (hnd : w.isDir (resolveSegs w.root p) = false) :
    read_file w p = .ok "" := by
  have hs : safe_path_for_project w.root p = .ok (resolveSegs w.root p) := by
    rw [safe_path_spec, if_pos hin]
  simp [read_file, hb, hs, hnf, hnd]

/-- C8 witness: reading the absent `missing.txt` under the root. -/
theorem read_missing_file_empty_witness :
    read_file wProj ["missing.txt"] = .ok "" :=
  read_missing_file_empty wProj ["missing.txt"] rfl (by decide) (by decide) (by decide)

/-- C10: invoked with no task plan anywhere in the state, the coder does
not raise: it returns the sentinel coder state (cursor 999, no steps)
with the world untouched, and the continuation check classifies that
sentinel as complete. -/
theorem no_task_plan_sentinel (o : Oracles) (input : CoderInput) (w : World)
    (h1 : input.task_plan = none)
    (h2 : ∀ csd, input.coder_state = some csd → csd.task_plan = none) :
    coder_agent o input w = .ok (⟨some ⟨[]⟩, some 999, none⟩, w)
    ∧ should_continue (some ⟨some ⟨[]⟩, some 999, none⟩) = "END" := by
  rcases input with ⟨tpf, csf⟩
  dsimp only at h1
  subst h1
  refine ⟨?_, by decide⟩
  cases hcs : csf with
  | none => rfl
  | some csd =>
    have hn := h2 csd (by rw [hcs])
    unfold coder_agent
    dsimp only
    rw [hn]

/-- C10 witness: the empty input state yields the sentinel. -/
theorem no_task_plan_sentinel_witness :
    coder_agent oraclesRaise ⟨none, none⟩ wProj = .ok (⟨some ⟨[]⟩, some 999, none⟩, wProj)
    ∧ should_continue (some ⟨some ⟨[]⟩, some 999, none⟩) = "END" :=
  no_task_plan_sentinel oraclesRaise ⟨none, none⟩ wProj rfl (fun _ h => by cases h)

/-- C2 counterexample: the claim reads "content non-empty is the
confirmation criterion", but the code strips the content first
(`len(test_content.strip()) > 0`, graph.py line 205).  Here the react
agent completes without raising and the post-attempt re-read of the
target returns the non-empty content " ", so under the claim the
fallback path must not be entered — yet the line-211 guard fires and
the code enters it (logging "trying fallback" and invoking the
completion). -/
theorem fallback_despite_nonempty_content :
    (oraclesWriteBlank.react (testWritePhase wProj)).raised = false
    ∧ read_file (afterReact oraclesWriteBlank wProj) (targetOf csAppStep) = .ok " "
    ∧ (" " : String) ≠ ""
    ∧ fallbackEntered oraclesWriteBlank csAppStep wProj = true := by
  decide

/-- C2 (amended): for every attempted step, the fallback path is
entered iff the react invocation raised or the verification re-read is
not confirmed, where confirmation means content non-empty after
stripping leading and trailing whitespace; the fallback is invoked at
most once and never retried, its write never reaches the target file
(the direct two-positional-argument tool call raises and is caught), so
the world after the invocation is exactly the post-react world, and in
every case the step is marked attempted: the cursor advances by one. -/
theorem fallback_iff_unconfirmed (o : Oracles) (cs : CoderState) (w : World)
    (hstep : cs.current_step_idx < cs.task_plan.implementation_steps.length) :
    (coderCore o cs w).1.current_step_idx = cs.current_step_idx + 1
    ∧ (fallbackEntered o cs w = true ↔
        ((o.react (testWritePhase w)).raised = true
         ∨ confirmedRead (afterReact o w) (targetOf cs) = false))
    ∧ (coderCore o cs w).2 = afterReact o w := by
  refine ⟨?_, ?_, ?_⟩
  · rw [coderCore_fst]
    dsimp only
    rw [if_neg (Nat.not_le.mpr hstep)]
  · unfold fallbackEntered
    cases hr : (o.react (testWritePhase w)).raised <;>
      cases hc : confirmedRead (afterReact o w) (targetOf cs) <;> simp
  · unfold coderCore
    rw [if_neg (Nat.not_le.mpr hstep)]
    dsimp only
    split
    · exact fallbackWorld_id o (targetOf cs) (afterReact o w)
    · rfl

/-- C2 witness: a concrete attempted step whose react invocation
raises: the guard fires, the cursor advances, the world stays the
post-react world. -/
theorem fallback_iff_unconfirmed_witness :
    (coderCore oraclesRaise csAppStep wProj).1.current_step_idx = 0 + 1
    ∧ (fallbackEntered oraclesRaise csAppStep wProj = true ↔
        ((oraclesRaise.react (testWritePhase wProj)).raised = true
         ∨ confirmedRead (afterReact oraclesRaise wProj) (targetOf csAppStep) = false))
    ∧ (coderCore oraclesRaise csAppStep wProj).2 = afterReact oraclesRaise wProj :=
  fallback_iff_unconfirmed oraclesRaise csAppStep wProj (by decide)

/-- C9 (code bug): the TEST block at graph.py lines 139-147 exists to
"verify write_file works" by writing `test.txt` with "Hello World Test"
before each attempted step — the behavior the claim describes.  But
`write_file("test.txt", "Hello World Test")` is a direct call with two
positional arguments on the `@tool`-decorated `StructuredTool`, which
raises before the tool body runs; the `except` at line 145 prints "Test
file write failed" on every invocation.  Evaluating the embedding at a
concrete attempted step: the cursor advances (the step was attempted),
yet no `test.txt` exists afterwards and no event was emitted — the
claimed frame effect never occurs. -/
theorem debug_write_never_lands :
    (coderCore oraclesRaise csAppStep wProj).1.current_step_idx = 1
    ∧ ((coderCore oraclesRaise csAppStep wProj).2).lookupFile
        (wProj.root ++ ["test.txt"]) = none
    ∧ ((coderCore oraclesRaise csAppStep wProj).2).events = [] := by
  decide

/-- C6 counterexample: a failed Plan parse makes the planner substitute
the default plan with no files, but the architect then runs its own
structured-generation call, which nothing forces to return zero steps:
here it parses to a two-step TaskPlan, and the first coding invocation
does not reach the terminal state — the continuation check asks for
another one. -/
theorem plan_failure_architect_nonzero :
    (planner_agent genPlanFailsTaskTwo).files = []
    ∧ (architect_agent genPlanFailsTaskTwo
        (some (planner_agent genPlanFailsTaskTwo))).implementation_steps.length = 2
    ∧ (match coder_agent oraclesRaise
          ⟨some ⟨(architect_agent genPlanFailsTaskTwo
              (some (planner_agent genPlanFailsTaskTwo))).implementation_steps⟩, none⟩
          wProj with
       | .ok (csd, _) => should_continue (some csd)
       | .error _ => "error") = "coder" := by
  decide

/-- C6 (amended): if the planning stage's structured generation fails to
parse, the planner substitutes the default Plan with an empty files
list; if the architecture stage's structured generation also fails to
parse, the architect substitutes a TaskPlan with zero implementation
steps, and the coding stage then reaches the terminal state on its
first invocation, with the state and world unchanged and the
continuation check routing to END. -/
theorem empty_plan_on_parse_failure (g : GenOracles) (o : Oracles) (w : World)
    (h1 : g.planGen = none) (h2 : ∀ p, g.taskGen p = none) :
    (planner_agent g).files = []
    ∧ (architect_agent g (some (planner_agent g))).implementation_steps = []
    ∧ coder_agent o
        ⟨some ⟨(architect_agent g (some (planner_agent g))).implementation_steps⟩, none⟩ w
      = .ok (⟨some ⟨[]⟩, some 0, some none⟩, w)
    ∧ should_continue (some ⟨some ⟨[]⟩, some 0, some none⟩) = "END" := by
  have hp : planner_agent g = ⟨"Error", "Failed to create plan", "unknown", [], []⟩ := by
    simp [planner_agent, h1]
  have ha : architect_agent g (some (planner_agent g)) = ⟨[], some (planner_agent g)⟩ := by
    simp [architect_agent, h2]
  refine ⟨by rw [hp], by rw [ha], ?_, by decide⟩
  rw [ha]
  rw [coder_agent_fresh]
  rw [coderCore_terminal o ⟨⟨[]⟩, 0, none⟩ w (by decide)]
  rfl

/-- C6 witness: with both generation calls failing, the empty plan and
empty task plan propagate and the first coding invocation is terminal. -/
theorem empty_plan_on_parse_failure_witness :
    (planner_agent genAllFail).files = []
    ∧ (architect_agent genAllFail (some (planner_agent genAllFail))).implementation_steps = []
    ∧ coder_agent oraclesRaise
        ⟨some ⟨(architect_agent genAllFail
            (some (planner_agent genAllFail))).implementation_steps⟩, none⟩ wProj
      = .ok (⟨some ⟨[]⟩, some 0, some none⟩, wProj)
    ∧ should_continue (some ⟨some ⟨[]⟩, some 0, some none⟩) = "END" :=
  empty_plan_on_parse_failure genAllFail oraclesRaise wProj rfl (fun _ => rfl)

end MyCodeBuddy
